import Mathlib

/-!
Verification of the compliance email automation system
(`compliance_email_system.py`, active code: class `ComplianceEmailSystem`
and `main`).  The program loads a tabular compliance matrix, filters task
rows by a schedule mode and the current date, groups eligible rows by
owner email, renders one HTML digest per owner and counts per-owner send
successes and failures.

This file shallowly embeds the data model and the functions
`load_excel_data`, `filter_tasks_by_schedule`, `create_email_content` and
`process_tasks`.  The ambient date `datetime.now().date()` is passed
explicitly as a `today` parameter; the SMTP transport (`send_email`,
including its credential check) is abstracted as an oracle
`sendOk : String → Bool` giving the per-recipient outcome of one send
attempt, as the spec treats the transport as an opaque collaborator.
-/

namespace Compliance

/-- A calendar date as in Python `datetime.date` (year, month, day).
Python's constructor only admits valid dates; here invalid field values
are representable but every claim is exercised on valid dates. -/
structure PyDate where
  year : Nat
  month : Nat
  day : Nat
deriving DecidableEq, Repr

/-- Gregorian leap-year test, as in Python `calendar.isleap`. -/
def isLeap (y : Nat) : Bool :=
  (y % 4 == 0 && y % 100 != 0) || (y % 400 == 0)

/-- Days in a month of the proleptic Gregorian calendar. -/
def daysInMonth (y m : Nat) : Nat :=
  if m = 2 then (if isLeap y then 29 else 28)
  else if m = 4 ∨ m = 6 ∨ m = 9 ∨ m = 11 then 30
  else 31

/-- Number of days in year `y` before the first day of month `m`. -/
def daysBeforeMonth (y m : Nat) : Nat :=
  (List.range (m - 1)).foldl (fun acc i => acc + daysInMonth y (i + 1)) 0

/-- Python `date.toordinal`: day number with Jan 1 of year 1 as day 1
(proleptic Gregorian).  Python compares dates and subtracts them
consistently with this ordinal. -/
def ordinalNat (d : PyDate) : Nat :=
  365 * (d.year - 1) + (d.year - 1) / 4 - (d.year - 1) / 100 + (d.year - 1) / 400
    + daysBeforeMonth d.year d.month + d.day

/-- The ordinal as an integer, for day subtraction (`(a - b).days`). -/
def toOrdinal (d : PyDate) : Int := (ordinalNat d : Int)

/-- Python `date.__le__` (valid dates compare by ordinal). -/
def dateLe (a b : PyDate) : Bool := decide (toOrdinal a ≤ toOrdinal b)

/-- Python `date.weekday()`: Monday = 0.  Jan 1 of year 1 (ordinal 1) was
a Monday. -/
def weekday (d : PyDate) : Nat := (ordinalNat d + 6) % 7

/-- One row of the compliance matrix, after `load_excel_data` has parsed
the two date columns.  Field names follow the spec's TaskRecord; the
column headers they come from are noted. -/
structure TaskRecord where
  /-- column `Task` -/
  task_name : String
  /-- column `Task Description` -/
  description : String
  /-- column `Email` -/
  owner_email : String
  /-- column `Attachment Link` -/
  attachment_link : String
  /-- column `Status` -/
  status : String
  /-- column `Start Date` -/
  start_date : PyDate
  /-- column `End Date` -/
  end_date : PyDate
  /-- column `Frequency` -/
  frequency : String
deriving DecidableEq, Repr

/-- Python `str.lower()`: lower-case each character (character-list
version of `String.toLower`, stated this way so proofs can compute). -/
def pyLower (s : String) : String := String.mk (s.toList.map Char.toLower)

/-- Python `needle in haystack` on strings: substring containment,
embedded as infix of the character lists. -/
def strContains (haystack needle : String) : Bool :=
  decide (needle.toList <:+: haystack.toList)

/-- `df['Frequency'].str.lower().str.contains(key, na=False)` applied to
one row (rows hold strings, so the `na=False` branch does not arise). -/
def freqContains (t : TaskRecord) (key : String) : Bool :=
  strContains (pyLower t.frequency) key

/-- `df['Status'].str.lower() == 'pending'` applied to one row. -/
def statusPending (t : TaskRecord) : Bool :=
  pyLower t.status == "pending"

/-- `filter_tasks_by_schedule` (lines 351-412).  `today` stands for the
`datetime.now().date()` sampled at the top of the method; the DataFrame
row filter becomes `List.filter` over the loaded records. -/
def filter_tasks_by_schedule (data : List TaskRecord) (schedule_type : String)
    (today : PyDate) : List TaskRecord :=
  if schedule_type = "monthly" then
    -- Monthly tasks - send on 1st of month
    if today.day ≠ 1 then []
    else data.filter (fun t => freqContains t "monthly" && statusPending t)
  else if schedule_type = "quarterly" then
    -- Quarterly tasks - send on last day of quarter
    let quarter_ends : List PyDate :=
      [⟨today.year, 3, 31⟩, ⟨today.year, 6, 30⟩, ⟨today.year, 9, 30⟩,
       ⟨today.year, 12, 31⟩]
    if today ∉ quarter_ends then []
    else data.filter (fun t => freqContains t "quarterly" && statusPending t)
  else if schedule_type = "daily" then
    -- Daily tasks - send every day
    data.filter (fun t => statusPending t && dateLe today t.end_date)
  else if schedule_type = "reminder" then
    -- Weekly reminders - the code tests weekday() != 2
    if weekday today ≠ 2 then []
    else data.filter (fun t => statusPending t && dateLe today t.end_date)
  else []

/-- Python `str.capitalize()`: first character upper-cased, the rest
lower-cased. -/
def pyCapitalize (s : String) : String :=
  match s.toList with
  | [] => ""
  | c :: cs => String.mk (Char.toUpper c :: cs.map Char.toLower)

/-- The `email_type` heading text computed at the top of
`create_email_content` (lines 419-423). -/
def email_type_of (schedule_type : String) : String :=
  if schedule_type = "reminder" then "Weekly Reminder"
  else if schedule_type = "daily" then "Daily Reminder"
  else pyCapitalize schedule_type

/-- The `email_subject` computed in `process_tasks` (lines 535-539). -/
def email_subject_of (schedule_type : String) : String :=
  if schedule_type = "reminder" then "Weekly Compliance Task Reminder"
  else if schedule_type = "daily" then "Daily Compliance Task Reminder"
  else "Compliance Task " ++ pyCapitalize schedule_type

/-- `days_remaining = (task['End Date'] - datetime.now().date()).days`
(line 460). -/
def days_remaining (today : PyDate) (t : TaskRecord) : Int :=
  toOrdinal t.end_date - toOrdinal today

/-- `urgent_class = "urgent" if days_remaining <= 3 else ""` (line 461). -/
def urgent_class (today : PyDate) (t : TaskRecord) : String :=
  if days_remaining today t ≤ 3 then "urgent" else ""

/-- Left-pad the decimal rendering of `n` with zeros to width 2. -/
def pad2 (n : Nat) : String := if n < 10 then "0" ++ toString n else toString n

/-- Left-pad the decimal rendering of `n` with zeros to width 4. -/
def pad4 (n : Nat) : String :=
  if n < 10 then "000" ++ toString n
  else if n < 100 then "00" ++ toString n
  else if n < 1000 then "0" ++ toString n
  else toString n

/-- Python `date.strftime('%Y-%m-%d')`. -/
def strftimeYmd (d : PyDate) : String :=
  pad4 d.year ++ "-" ++ pad2 d.month ++ "-" ++ pad2 d.day

/-- The deadline `<td>` cell of one task row (inside line 467): carries
the urgent CSS class, the formatted end date and the remaining-day
count. -/
def renderDeadlineCell (today : PyDate) (t : TaskRecord) : String :=
  "<td class=\"" ++ urgent_class today t ++ "\">" ++ strftimeYmd t.end_date
    ++ " (" ++ toString (days_remaining today t) ++ " days remaining)</td>"

/-- One `<tr>` block appended per task by the loop of
`create_email_content` (lines 459-471). -/
def renderTaskRow (today : PyDate) (t : TaskRecord) : String :=
  "\n                    <tr>\n                        <td><strong>" ++ t.task_name
    ++ "</strong></td>\n                        <td>" ++ t.description
    ++ "</td>\n                        " ++ renderDeadlineCell today t
    ++ "\n                        <td>" ++ t.frequency
    ++ "</td>\n                        <td><a href=\"" ++ t.attachment_link
    ++ "\" target=\"_blank\">Upload Files</a></td>\n                    </tr>\n            "

/-- The fixed HTML head of the digest (lines 425-457), as a function of
the heading text and the task count (the two interpolated values). -/
def htmlHead (emailType : String) (taskCount : Nat) : String :=
  "\n        <!DOCTYPE html>\n        <html>\n        <head>\n            <style>\n                body \x7b font-family: Arial, sans-serif; line-height: 1.6; margin: 0; padding: 20px; \x7d\n                .header \x7b background-color: #f8f9fa; padding: 20px; text-align: center; border-radius: 5px; \x7d\n                .task-table \x7b width: 100%; border-collapse: collapse; margin: 20px 0; \x7d\n                .task-table th, .task-table td \x7b border: 1px solid #ddd; padding: 12px; text-align: left; \x7d\n                .task-table th \x7b background-color: #4CAF50; color: white; \x7d\n                .task-table tr:nth-child(even) \x7b background-color: #f2f2f2; \x7d\n                .urgent \x7b color: #ff6b6b; font-weight: bold; \x7d\n                .footer \x7b margin-top: 20px; padding: 15px; background-color: #f8f9fa; border-radius: 5px; \x7d\n            </style>\n        </head>\n        <body>\n            <div class=\"header\">\n                <h2>Compliance Task " ++ emailType
    ++ "</h2>\n                <p>You have " ++ toString taskCount
    ++ " pending compliance task(s)</p>\n            </div>\n            \n            <table class=\"task-table\">\n                <thead>\n                    <tr>\n                        <th>Task</th>\n                        <th>Description</th>\n                        <th>Deadline</th>\n                        <th>Frequency</th>\n                        <th>Attachment Link</th>\n                    </tr>\n                </thead>\n                <tbody>\n        "

/-- The fixed HTML tail of the digest (lines 473-483). -/
def htmlFoot : String :=
  "\n                </tbody>\n            </table>\n            \n            <div class=\"footer\">\n                <p><strong>Action Required:</strong> Please complete these tasks by their respective deadlines.</p>\n                <p><strong>Note:</strong> This is an automated message. Please do not reply to this email.</p>\n            </div>\n        </body>\n        </html>\n        "

/-- `create_email_content` (lines 414-485): head, one row per task
appended in order, tail. -/
def create_email_content (user_tasks : List TaskRecord) (schedule_type : String)
    (today : PyDate) : String :=
  (user_tasks.map (renderTaskRow today)).foldl (fun acc r => acc ++ r)
      (htmlHead (email_type_of schedule_type) user_tasks.length)
    ++ htmlFoot

/-- The tabular source as seen after reading the spreadsheet: the header
row and the task rows.  Cell-level parsing of the two date columns (whose
failure also makes `load_excel_data` return `False`) is not modelled:
rows already carry parsed dates, since no claim exercises malformed
cells. -/
structure ExcelTable where
  columns : List String
  rows : List TaskRecord
deriving Repr

/-- `required_columns` (lines 332-333). -/
def required_columns : List String :=
  ["Task", "Task Description", "Email", "Attachment Link",
   "Status", "Start Date", "End Date", "Frequency"]

/-- `load_excel_data` (lines 326-349): validates that every required
column is present; on any missing column returns failure (`False` in the
code), otherwise the full unfiltered record list. -/
def load_excel_data (table : ExcelTable) : Option (List TaskRecord) :=
  let missing_columns := required_columns.filter (fun c => !table.columns.contains c)
  if missing_columns.isEmpty then some table.rows else none

/-- The dictionary `process_tasks` returns.  Python dicts can omit keys,
so each counter is an `Option`: `none` means the key is absent from the
returned dict. -/
structure ProcResult where
  success : Bool
  error : Option String := none
  emails_sent : Option Nat := none
  emails_failed : Option Nat := none
  total_tasks : Option Nat := none
  unique_users : Option Nat := none
deriving DecidableEq, Repr

/-- `filtered_tasks.groupby('Email')` (line 531): one group per distinct
`owner_email` string (exact equality), each holding that owner's rows in
order.  pandas iterates groups sorted by key; no claim or spec clause
depends on group order ("iterate groups in arbitrary order"), so the
groups are listed in the order `List.dedup` produces. -/
def group_by_email (tasks : List TaskRecord) : List (String × List TaskRecord) :=
  ((tasks.map (fun t => t.owner_email)).dedup).map
    (fun e => (e, tasks.filter (fun t => t.owner_email == e)))

/-- The send loop of `process_tasks` (lines 541-549): render one digest
per group, attempt one send per group, and tally successes and failures.
Returns `(emails_sent, emails_failed, attempts)` where `attempts`
records, in order, each `(recipient, rendered html)` handed to
`send_email`. -/
def sendLoop (sendOk : String → Bool) (schedule_type : String) (today : PyDate)
    (grouped : List (String × List TaskRecord)) : Nat × Nat × List (String × String) :=
  grouped.foldl
    (fun acc g =>
      let html := create_email_content g.2 schedule_type today
      if sendOk g.1 then (acc.1 + 1, acc.2.1, acc.2.2 ++ [(g.1, html)])
      else (acc.1, acc.2.1 + 1, acc.2.2 ++ [(g.1, html)]))
    (0, 0, [])

/-- `process_tasks` (lines 518-560).  Besides the result dictionary it
returns the list of attempted sends, so that "no rendering or sending
happened" is visible as an empty attempt list. -/
def process_tasks (table : ExcelTable) (schedule_type : String) (today : PyDate)
    (sendOk : String → Bool) : ProcResult × List (String × String) :=
  match load_excel_data table with
  | none => ({ success := false, error := some "Failed to load Excel data" }, [])
  | some data =>
    let filtered := filter_tasks_by_schedule data schedule_type today
    if filtered.isEmpty then
      -- line 528: the returned dict has no 'emails_failed' key
      ({ success := true, emails_sent := some 0, total_tasks := some 0,
         unique_users := some 0 }, [])
    else
      let grouped := group_by_email filtered
      let loop := sendLoop sendOk schedule_type today grouped
      ({ success := true, emails_sent := some loop.1, emails_failed := some loop.2.1,
         total_tasks := some filtered.length, unique_users := some grouped.length },
       loop.2.2)

/-- A sample row of the compliance matrix, for witnesses. -/
def mkTask (email status : String) (end_date : PyDate) (frequency : String) :
    TaskRecord :=
  ⟨"T", "d", email, "http://l", status, ⟨2025, 1, 1⟩, end_date, frequency⟩

/-! ### Helper lemmas -/

/-- The `"daily"` branch of the filter, unfolded. -/
theorem filter_daily_eq (data : List TaskRecord) (today : PyDate) :
    filter_tasks_by_schedule data "daily" today =
      data.filter (fun t => statusPending t && dateLe today t.end_date) := rfl

/-- The `"monthly"` branch of the filter, unfolded. -/
theorem filter_monthly_eq (data : List TaskRecord) (today : PyDate) :
    filter_tasks_by_schedule data "monthly" today =
      if today.day ≠ 1 then []
      else data.filter (fun t => freqContains t "monthly" && statusPending t) := rfl

/-- The `"quarterly"` branch of the filter, unfolded. -/
theorem filter_quarterly_eq (data : List TaskRecord) (today : PyDate) :
    filter_tasks_by_schedule data "quarterly" today =
      if today ∉ [(⟨today.year, 3, 31⟩ : PyDate), ⟨today.year, 6, 30⟩,
          ⟨today.year, 9, 30⟩, ⟨today.year, 12, 31⟩] then []
      else data.filter (fun t => freqContains t "quarterly" && statusPending t) := rfl

/-- Closed form of the send loop: the success tally counts the groups
whose recipient the transport accepts, the failure tally counts the
rest, and one send is attempted per group, in order. -/
theorem sendLoop_spec (sendOk : String → Bool) (st : String) (today : PyDate)
    (gs : List (String × List TaskRecord)) :
    sendLoop sendOk st today gs =
      ((gs.filter (fun g => sendOk g.1)).length,
       (gs.filter (fun g => !sendOk g.1)).length,
       gs.map (fun g => (g.1, create_email_content g.2 st today))) := by
  suffices aux : ∀ (gs : List (String × List TaskRecord))
      (acc : Nat × Nat × List (String × String)),
      gs.foldl
        (fun acc g =>
          let html := create_email_content g.2 st today
          if sendOk g.1 then (acc.1 + 1, acc.2.1, acc.2.2 ++ [(g.1, html)])
          else (acc.1, acc.2.1 + 1, acc.2.2 ++ [(g.1, html)])) acc =
      (acc.1 + (gs.filter (fun g => sendOk g.1)).length,
       acc.2.1 + (gs.filter (fun g => !sendOk g.1)).length,
       acc.2.2 ++ gs.map (fun g => (g.1, create_email_content g.2 st today))) by
    rw [sendLoop, aux]
    simp
  intro gs
  induction gs with
  | nil => intro acc; simp
  | cons g gs ih =>
    intro acc
    rw [List.foldl_cons]
    dsimp only
    by_cases h : sendOk g.1
    · have hf1 : (g :: gs).filter (fun g => sendOk g.1) =
          g :: gs.filter (fun g => sendOk g.1) := by simp [List.filter_cons, h]
      have hf2 : (g :: gs).filter (fun g => !sendOk g.1) =
          gs.filter (fun g => !sendOk g.1) := by simp [List.filter_cons, h]
      rw [if_pos h, ih, hf1, hf2, List.map_cons, List.length_cons]
      simp only [Prod.mk.injEq, List.append_assoc, List.singleton_append,
        and_true, true_and]
      omega
    · have hf1 : (g :: gs).filter (fun g => sendOk g.1) =
          gs.filter (fun g => sendOk g.1) := by simp [List.filter_cons, h]
      have hf2 : (g :: gs).filter (fun g => !sendOk g.1) =
          g :: gs.filter (fun g => !sendOk g.1) := by simp [List.filter_cons, h]
      rw [if_neg h, ih, hf1, hf2, List.map_cons, List.length_cons]
      simp only [Prod.mk.injEq, List.append_assoc, List.singleton_append,
        and_true, true_and]
      omega

/-- `process_tasks` on a successful load with a non-empty filtered set,
in closed form. -/
theorem process_tasks_nonempty (table : ExcelTable) (mode : String) (today : PyDate)
    (sendOk : String → Bool) (data : List TaskRecord)
    (hload : load_excel_data table = some data)
    (hne : filter_tasks_by_schedule data mode today ≠ []) :
    process_tasks table mode today sendOk =
      ({ success := true,
         error := none,
         emails_sent := some ((group_by_email
           (filter_tasks_by_schedule data mode today)).filter
             (fun g => sendOk g.1)).length,
         emails_failed := some ((group_by_email
           (filter_tasks_by_schedule data mode today)).filter
             (fun g => !sendOk g.1)).length,
         total_tasks := some (filter_tasks_by_schedule data mode today).length,
         unique_users := some (group_by_email
           (filter_tasks_by_schedule data mode today)).length },
       (group_by_email (filter_tasks_by_schedule data mode today)).map
         (fun g => (g.1, create_email_content g.2 mode today))) := by
  unfold process_tasks
  rw [hload]
  dsimp only
  rw [if_neg (by simp [hne]), sendLoop_spec]

/-! ### Claim theorems: schedule filter -/

/-- C6: for every task table, filtering with mode `monthly` on any date
whose day-of-month is not 1 returns the empty set, regardless of the
table's contents. -/
theorem monthly_gate_empty (data : List TaskRecord) (today : PyDate)
    (h : today.day ≠ 1) :
    filter_tasks_by_schedule data "monthly" today = [] := by
  rw [filter_monthly_eq, if_pos h]

/-- Witness for C6: January 2nd is not the 1st, so the monthly filter is
empty on an arbitrary concrete table. -/
theorem monthly_gate_empty_witness :
    filter_tasks_by_schedule
      [⟨"T", "d", "a@x.com", "http://l", "Pending", ⟨2025, 1, 1⟩, ⟨2025, 12, 31⟩,
        "Monthly"⟩]
      "monthly" ⟨2025, 1, 2⟩ = [] :=
  monthly_gate_empty _ _ (by decide)

/-- C9: the schedule filter is a pure, deterministic function of
`(tasks, mode, today)`: two applications to identical inputs give
identical results, and the result is a sublist of the untouched source
table (the embedding is a pure function, so the source list is never
mutated). -/
theorem filter_deterministic_and_sublist (data : List TaskRecord) (mode : String)
    (today : PyDate) :
    filter_tasks_by_schedule data mode today = filter_tasks_by_schedule data mode today ∧
    (filter_tasks_by_schedule data mode today).Sublist data := by
  refine ⟨rfl, ?_⟩
  unfold filter_tasks_by_schedule
  dsimp only
  repeat' split
  all_goals first
    | exact List.filter_sublist _
    | exact List.nil_sublist _

/-- C2: for every task table, quarterly filtering on a date that is not
Mar 31, Jun 30, Sep 30 or Dec 31 (of the date's own year, which is what
the code's `quarter_ends` list contains) is empty; on Dec 31 it includes
every task whose lower-cased status is `pending` and whose lower-cased
frequency contains the substring `quarterly`. -/
theorem quarterly_gate_and_dec31 (data : List TaskRecord) (today : PyDate) :
    ((today.month, today.day) ∉ ([(3, 31), (6, 30), (9, 30), (12, 31)] :
        List (Nat × Nat)) →
      filter_tasks_by_schedule data "quarterly" today = []) ∧
    (today.month = 12 → today.day = 31 →
      ∀ t ∈ data, pyLower t.status = "pending" →
        "quarterly".toList <:+: (pyLower t.frequency).toList →
        t ∈ filter_tasks_by_schedule data "quarterly" today) := by
  obtain ⟨y, m, d⟩ := today
  constructor
  · intro h
    rw [filter_quarterly_eq, if_pos]
    intro hmem
    simp only [List.mem_cons, PyDate.mk.injEq, List.not_mem_nil, or_false] at hmem
    simp only [List.mem_cons, Prod.mk.injEq, List.not_mem_nil, or_false] at h
    tauto
  · intro hm hd t ht hs hf
    dsimp only at hm hd
    subst hm
    subst hd
    rw [filter_quarterly_eq, if_neg]
    · refine List.mem_filter.mpr ⟨ht, ?_⟩
      simp only [freqContains, strContains, statusPending, Bool.and_eq_true,
        decide_eq_true_eq, beq_iff_eq]
      exact ⟨hf, hs⟩
    · simp

/-- Witness for C2: on 2025-12-30 the quarterly filter is empty; on
2025-12-31 a pending task with frequency `Semi-Quarterly` is included. -/
theorem quarterly_gate_and_dec31_witness :
    filter_tasks_by_schedule [mkTask "a@x.com" "Pending" ⟨2026, 3, 1⟩ "Semi-Quarterly"]
        "quarterly" ⟨2025, 12, 30⟩ = [] ∧
    mkTask "a@x.com" "Pending" ⟨2026, 3, 1⟩ "Semi-Quarterly" ∈
      filter_tasks_by_schedule [mkTask "a@x.com" "Pending" ⟨2026, 3, 1⟩ "Semi-Quarterly"]
        "quarterly" ⟨2025, 12, 31⟩ :=
  ⟨(quarterly_gate_and_dec31 _ ⟨2025, 12, 30⟩).1 (by decide),
   (quarterly_gate_and_dec31 _ ⟨2025, 12, 31⟩).2 rfl rfl _ (by decide) (by decide)
     (by decide)⟩

/-- C3: for every task table and date `today`, the daily filter includes
any pending task with `end_date = today`, excludes a pending task whose
end date is the day before `today`, and excludes any non-pending task
regardless of its end date. -/
theorem daily_filter_spec (data : List TaskRecord) (today : PyDate)
    (t : TaskRecord) (ht : t ∈ data) :
    (pyLower t.status = "pending" → t.end_date = today →
      t ∈ filter_tasks_by_schedule data "daily" today) ∧
    (pyLower t.status = "pending" → toOrdinal t.end_date = toOrdinal today - 1 →
      t ∉ filter_tasks_by_schedule data "daily" today) ∧
    (pyLower t.status ≠ "pending" →
      t ∉ filter_tasks_by_schedule data "daily" today) := by
  rw [filter_daily_eq]
  refine ⟨?_, ?_, ?_⟩
  · intro hs he
    refine List.mem_filter.mpr ⟨ht, ?_⟩
    simp only [statusPending, dateLe, Bool.and_eq_true, beq_iff_eq, decide_eq_true_eq]
    exact ⟨hs, by rw [he]⟩
  · intro hs he hmem
    have hp := (List.mem_filter.mp hmem).2
    simp only [statusPending, dateLe, Bool.and_eq_true, beq_iff_eq,
      decide_eq_true_eq] at hp
    omega
  · intro hs hmem
    have hp := (List.mem_filter.mp hmem).2
    simp only [statusPending, dateLe, Bool.and_eq_true, beq_iff_eq,
      decide_eq_true_eq] at hp
    exact hs hp.1

/-- Witness for C3 on 2025-10-10: a pending task due that day is kept, a
pending task due 2025-10-09 is dropped, a completed task due 2025-10-15
is dropped. -/
theorem daily_filter_spec_witness :
    mkTask "a@x.com" "Pending" ⟨2025, 10, 10⟩ "Monthly" ∈
      filter_tasks_by_schedule
        [mkTask "a@x.com" "Pending" ⟨2025, 10, 10⟩ "Monthly",
         mkTask "b@x.com" "Pending" ⟨2025, 10, 9⟩ "Monthly",
         mkTask "c@x.com" "Completed" ⟨2025, 10, 15⟩ "Monthly"]
        "daily" ⟨2025, 10, 10⟩ ∧
    mkTask "b@x.com" "Pending" ⟨2025, 10, 9⟩ "Monthly" ∉
      filter_tasks_by_schedule
        [mkTask "a@x.com" "Pending" ⟨2025, 10, 10⟩ "Monthly",
         mkTask "b@x.com" "Pending" ⟨2025, 10, 9⟩ "Monthly",
         mkTask "c@x.com" "Completed" ⟨2025, 10, 15⟩ "Monthly"]
        "daily" ⟨2025, 10, 10⟩ ∧
    mkTask "c@x.com" "Completed" ⟨2025, 10, 15⟩ "Monthly" ∉
      filter_tasks_by_schedule
        [mkTask "a@x.com" "Pending" ⟨2025, 10, 10⟩ "Monthly",
         mkTask "b@x.com" "Pending" ⟨2025, 10, 9⟩ "Monthly",
         mkTask "c@x.com" "Completed" ⟨2025, 10, 15⟩ "Monthly"]
        "daily" ⟨2025, 10, 10⟩ :=
  ⟨(daily_filter_spec _ _ _ (by decide)).1 (by decide) rfl,
   (daily_filter_spec _ _ _ (by decide)).2.1 (by decide) (by decide),
   (daily_filter_spec _ _ _ (by decide)).2.2 (by decide)⟩

/-- C8: in a rendered digest, the deadline cell of a task carries the
`urgent` CSS class exactly when `end_date - today` is at most 3 days,
and otherwise carries an empty class. -/
theorem urgent_marker (today : PyDate) (t : TaskRecord) :
    (urgent_class today t = "urgent" ↔ days_remaining today t ≤ 3) ∧
    renderDeadlineCell today t =
      (if days_remaining today t ≤ 3 then "<td class=\"urgent\">"
       else "<td class=\"\">")
        ++ strftimeYmd t.end_date ++ " (" ++ toString (days_remaining today t)
        ++ " days remaining)</td>" := by
  constructor
  · constructor
    · intro he
      by_contra hn
      rw [urgent_class, if_neg hn] at he
      exact absurd he (by decide)
    · intro h
      rw [urgent_class, if_pos h]
  · by_cases h : days_remaining today t ≤ 3
    · simp only [renderDeadlineCell, urgent_class, if_pos h]
      rfl
    · simp only [renderDeadlineCell, urgent_class, if_neg h]
      rfl

/-! ### Claim theorems: loading and the run -/

/-- C1 (code-bug evidence): on a well-formed matrix whose filtered set is
empty (monthly mode on Jan 2), `process_tasks` returns success with
`emails_sent`, `total_tasks` and `unique_users` all zero and attempts no
rendering or sending, but the returned dictionary carries **no**
`emails_failed` key (line 528), although `main` (line 590)
unconditionally reads `result['emails_failed']`. -/
theorem empty_run_result_lacks_failed_key :
    process_tasks
        ⟨required_columns, [mkTask "a@x.com" "Pending" ⟨2025, 12, 31⟩ "Monthly"]⟩
        "monthly" ⟨2025, 1, 2⟩ (fun _ => true) =
      ({ success := true, error := none, emails_sent := some 0,
         emails_failed := none, total_tasks := some 0,
         unique_users := some 0 }, []) := by
  decide

/-- C7: whenever a required column is missing from the source table, the
load fails and `process_tasks` returns a failure result with no
filtering, rendering or sending (the attempt list is empty). -/
theorem missing_column_aborts (table : ExcelTable) (mode : String)
    (today : PyDate) (sendOk : String → Bool) (c : String)
    (hc : c ∈ required_columns) (hmiss : c ∉ table.columns) :
    load_excel_data table = none ∧
    process_tasks table mode today sendOk =
      ({ success := false, error := some "Failed to load Excel data" }, []) := by
  have hfil : c ∈ required_columns.filter (fun c => !table.columns.contains c) :=
    List.mem_filter.mpr ⟨hc, by simp [hmiss]⟩
  have hload : load_excel_data table = none := by
    unfold load_excel_data
    dsimp only
    rw [if_neg]
    intro he
    rw [List.isEmpty_iff.mp he] at hfil
    exact List.not_mem_nil c hfil
  exact ⟨hload, by unfold process_tasks; rw [hload]⟩

/-- Witness for C7: a table having only the `Task` column is missing the
`Email` column, so the load fails and the run aborts. -/
theorem missing_column_aborts_witness :
    load_excel_data ⟨["Task"], []⟩ = none ∧
    process_tasks ⟨["Task"], []⟩ "daily" ⟨2025, 10, 10⟩ (fun _ => true) =
      ({ success := false, error := some "Failed to load Excel data" }, []) :=
  missing_column_aborts ⟨["Task"], []⟩ "daily" ⟨2025, 10, 10⟩ (fun _ => true)
    "Email" (by decide) (by decide)

/-- C5: grouping uses exact string equality on `owner_email`: four
filtered rows over three pairwise distinct owner emails, one email
appearing on two rows, produce exactly three digests, and the duplicated
owner's digest holds both of that owner's rows (in row order). -/
theorem grouping_exact_three_digests (e1 e2 e3 : String) (a b c d : TaskRecord)
    (ha : a.owner_email = e1) (hb : b.owner_email = e2)
    (hc : c.owner_email = e3) (hd : d.owner_email = e1)
    (h12 : e1 ≠ e2) (h13 : e1 ≠ e3) (h23 : e2 ≠ e3) :
    (group_by_email [a, b, c, d]).length = 3 ∧
    (e1, [a, d]) ∈ group_by_email [a, b, c, d] := by
  have hkeys : ([a, b, c, d].map fun t => t.owner_email) = [e1, e2, e3, e1] := by
    simp [ha, hb, hc, hd]
  have hded : ([e1, e2, e3, e1] : List String).dedup = [e2, e3, e1] := by
    rw [List.dedup_cons_of_mem (show e1 ∈ [e2, e3, e1] by simp),
      List.dedup_cons_of_not_mem (show e2 ∉ [e3, e1] by
        intro hmem
        rcases List.mem_cons.mp hmem with he | hmem2
        · exact h23 he
        · rcases List.mem_cons.mp hmem2 with he | hnil
          · exact h12 he.symm
          · exact List.not_mem_nil e2 hnil),
      List.dedup_cons_of_not_mem (show e3 ∉ [e1] by
        intro hmem
        rcases List.mem_cons.mp hmem with he | hnil
        · exact h13 he.symm
        · exact List.not_mem_nil e3 hnil),
      List.dedup_cons_of_not_mem (List.not_mem_nil e1), List.dedup_nil]
  have hfb : (e2 == e1) = false := beq_eq_false_iff_ne.mpr fun he => h12 he.symm
  have hfc : (e3 == e1) = false := beq_eq_false_iff_ne.mpr fun he => h13 he.symm
  have hfilter :
      List.filter (fun t => t.owner_email == e1) [a, b, c, d] = [a, d] := by
    simp [List.filter_cons, ha, hb, hc, hd, hfb, hfc]
  constructor
  · unfold group_by_email
    rw [hkeys, hded]
    rfl
  · unfold group_by_email
    rw [hkeys, hded]
    have hmem : (e1, List.filter (fun t => t.owner_email == e1) [a, b, c, d]) ∈
        ([e2, e3, e1].map fun e =>
          (e, List.filter (fun t => t.owner_email == e) [a, b, c, d])) :=
      List.mem_map_of_mem _ (by simp)
    rw [hfilter] at hmem
    exact hmem

/-- Witness for C5: three distinct literal emails, `alice@x.com` on two
of four rows; three digests come out and alice's digest has both rows. -/
theorem grouping_exact_three_digests_witness :
    (group_by_email
      [mkTask "alice@x.com" "Pending" ⟨2025, 10, 20⟩ "Monthly",
       mkTask "bob@x.com" "Pending" ⟨2025, 10, 21⟩ "Monthly",
       mkTask "carol@x.com" "Pending" ⟨2025, 10, 22⟩ "Monthly",
       mkTask "alice@x.com" "Pending" ⟨2025, 10, 23⟩ "Quarterly"]).length = 3 ∧
    ("alice@x.com",
      [mkTask "alice@x.com" "Pending" ⟨2025, 10, 20⟩ "Monthly",
       mkTask "alice@x.com" "Pending" ⟨2025, 10, 23⟩ "Quarterly"]) ∈
      group_by_email
        [mkTask "alice@x.com" "Pending" ⟨2025, 10, 20⟩ "Monthly",
         mkTask "bob@x.com" "Pending" ⟨2025, 10, 21⟩ "Monthly",
         mkTask "carol@x.com" "Pending" ⟨2025, 10, 22⟩ "Monthly",
         mkTask "alice@x.com" "Pending" ⟨2025, 10, 23⟩ "Quarterly"] :=
  grouping_exact_three_digests "alice@x.com" "bob@x.com" "carol@x.com" _ _ _ _
    rfl rfl rfl rfl (by decide) (by decide) (by decide)

/-- C4: on a run whose filtered set groups into three distinct owners,
if the transport fails for exactly one of them, the run still attempts a
send for every owner (the attempted recipients are exactly the group
keys) and reports 2 sent, 1 failed, 3 unique users, success. -/
theorem per_owner_isolation (table : ExcelTable) (mode : String) (today : PyDate)
    (sendOk : String → Bool) (data : List TaskRecord)
    (hload : load_excel_data table = some data)
    (hgroups : (group_by_email (filter_tasks_by_schedule data mode today)).length = 3)
    (hfail : ((group_by_email (filter_tasks_by_schedule data mode today)).filter
      (fun g => !sendOk g.1)).length = 1) :
    (process_tasks table mode today sendOk).1.emails_sent = some 2 ∧
    (process_tasks table mode today sendOk).1.emails_failed = some 1 ∧
    (process_tasks table mode today sendOk).1.unique_users = some 3 ∧
    (process_tasks table mode today sendOk).1.success = true ∧
    (process_tasks table mode today sendOk).2.map (fun x => x.1) =
      (group_by_email (filter_tasks_by_schedule data mode today)).map
        (fun g => g.1) := by
  have hne : filter_tasks_by_schedule data mode today ≠ [] := by
    intro h
    rw [h] at hgroups
    simp [group_by_email] at hgroups
  rw [process_tasks_nonempty table mode today sendOk data hload hne]
  have hsum : (group_by_email (filter_tasks_by_schedule data mode today)).length =
      ((group_by_email (filter_tasks_by_schedule data mode today)).filter
        (fun g => sendOk g.1)).length +
      ((group_by_email (filter_tasks_by_schedule data mode today)).filter
        (fun g => !sendOk g.1)).length :=
    List.length_eq_length_filter_add _
  have hsent : ((group_by_email (filter_tasks_by_schedule data mode today)).filter
      (fun g => sendOk g.1)).length = 2 := by omega
  refine ⟨by rw [hsent], by rw [hfail], by rw [hgroups], rfl, ?_⟩
  rw [List.map_map]
  rfl

/-- Witness for C4: three pending owners on a daily run; the transport
rejects `bob@x.com` only; 2 sent, 1 failed, 3 owners, all attempted. -/
theorem per_owner_isolation_witness :
    (process_tasks
      ⟨required_columns,
       [mkTask "alice@x.com" "Pending" ⟨2025, 10, 20⟩ "Monthly",
        mkTask "bob@x.com" "Pending" ⟨2025, 10, 21⟩ "Monthly",
        mkTask "carol@x.com" "Pending" ⟨2025, 10, 22⟩ "Monthly"]⟩
      "daily" ⟨2025, 10, 10⟩ (fun e => !(e == "bob@x.com"))).1.emails_sent =
        some 2 ∧
    (process_tasks
      ⟨required_columns,
       [mkTask "alice@x.com" "Pending" ⟨2025, 10, 20⟩ "Monthly",
        mkTask "bob@x.com" "Pending" ⟨2025, 10, 21⟩ "Monthly",
        mkTask "carol@x.com" "Pending" ⟨2025, 10, 22⟩ "Monthly"]⟩
      "daily" ⟨2025, 10, 10⟩ (fun e => !(e == "bob@x.com"))).1.emails_failed =
        some 1 ∧
    (process_tasks
      ⟨required_columns,
       [mkTask "alice@x.com" "Pending" ⟨2025, 10, 20⟩ "Monthly",
        mkTask "bob@x.com" "Pending" ⟨2025, 10, 21⟩ "Monthly",
        mkTask "carol@x.com" "Pending" ⟨2025, 10, 22⟩ "Monthly"]⟩
      "daily" ⟨2025, 10, 10⟩ (fun e => !(e == "bob@x.com"))).1.unique_users =
        some 3 ∧
    (process_tasks
      ⟨required_columns,
       [mkTask "alice@x.com" "Pending" ⟨2025, 10, 20⟩ "Monthly",
        mkTask "bob@x.com" "Pending" ⟨2025, 10, 21⟩ "Monthly",
        mkTask "carol@x.com" "Pending" ⟨2025, 10, 22⟩ "Monthly"]⟩
      "daily" ⟨2025, 10, 10⟩ (fun e => !(e == "bob@x.com"))).1.success = true ∧
    (process_tasks
      ⟨required_columns,
       [mkTask "alice@x.com" "Pending" ⟨2025, 10, 20⟩ "Monthly",
        mkTask "bob@x.com" "Pending" ⟨2025, 10, 21⟩ "Monthly",
        mkTask "carol@x.com" "Pending" ⟨2025, 10, 22⟩ "Monthly"]⟩
      "daily" ⟨2025, 10, 10⟩ (fun e => !(e == "bob@x.com"))).2.map
        (fun x => x.1) =
      (group_by_email (filter_tasks_by_schedule
        [mkTask "alice@x.com" "Pending" ⟨2025, 10, 20⟩ "Monthly",
         mkTask "bob@x.com" "Pending" ⟨2025, 10, 21⟩ "Monthly",
         mkTask "carol@x.com" "Pending" ⟨2025, 10, 22⟩ "Monthly"]
        "daily" ⟨2025, 10, 10⟩)).map (fun g => g.1) :=
  per_owner_isolation _ "daily" ⟨2025, 10, 10⟩ (fun e => !(e == "bob@x.com")) _
    (by decide) (by decide) (by decide)

/-- C10: on every run with a successful load and a non-empty filtered
set, the result is a success, `total_tasks` is the number of filtered
records, and `emails_sent + emails_failed = unique_users` (each owner
group is attempted and tallied exactly once). -/
theorem run_counters_invariant (table : ExcelTable) (mode : String)
    (today : PyDate) (sendOk : String → Bool) (data : List TaskRecord)
    (hload : load_excel_data table = some data)
    (hne : filter_tasks_by_schedule data mode today ≠ []) :
    (process_tasks table mode today sendOk).1.success = true ∧
    (process_tasks table mode today sendOk).1.total_tasks =
      some (filter_tasks_by_schedule data mode today).length ∧
    ∃ s f u, (process_tasks table mode today sendOk).1.emails_sent = some s ∧
      (process_tasks table mode today sendOk).1.emails_failed = some f ∧
      (process_tasks table mode today sendOk).1.unique_users = some u ∧
      s + f = u := by
  rw [process_tasks_nonempty table mode today sendOk data hload hne]
  exact ⟨rfl, rfl, _, _, _, rfl, rfl, rfl,
    (List.length_eq_length_filter_add _).symm⟩

/-- Witness for C10: one pending owner on a daily run: 1 sent + 0 failed
= 1 unique user, 1 total task, success. -/
theorem run_counters_invariant_witness :
    (process_tasks
      ⟨required_columns, [mkTask "alice@x.com" "Pending" ⟨2025, 10, 20⟩ "Monthly"]⟩
      "daily" ⟨2025, 10, 10⟩ (fun _ => true)).1.success = true ∧
    (process_tasks
      ⟨required_columns, [mkTask "alice@x.com" "Pending" ⟨2025, 10, 20⟩ "Monthly"]⟩
      "daily" ⟨2025, 10, 10⟩ (fun _ => true)).1.total_tasks =
      some (filter_tasks_by_schedule
        [mkTask "alice@x.com" "Pending" ⟨2025, 10, 20⟩ "Monthly"]
        "daily" ⟨2025, 10, 10⟩).length ∧
    ∃ s f u,
      (process_tasks
        ⟨required_columns, [mkTask "alice@x.com" "Pending" ⟨2025, 10, 20⟩ "Monthly"]⟩
        "daily" ⟨2025, 10, 10⟩ (fun _ => true)).1.emails_sent = some s ∧
      (process_tasks
        ⟨required_columns, [mkTask "alice@x.com" "Pending" ⟨2025, 10, 20⟩ "Monthly"]⟩
        "daily" ⟨2025, 10, 10⟩ (fun _ => true)).1.emails_failed = some f ∧
      (process_tasks
        ⟨required_columns, [mkTask "alice@x.com" "Pending" ⟨2025, 10, 20⟩ "Monthly"]⟩
        "daily" ⟨2025, 10, 10⟩ (fun _ => true)).1.unique_users = some u ∧
      s + f = u :=
  run_counters_invariant _ "daily" ⟨2025, 10, 10⟩ (fun _ => true) _
    (by decide) (by decide)

end Compliance
